import Mathlib

/-!
Shallow embedding of the ecobee.control automation engine
(`src/ecobee_automation.py`, `api_server.py`) and proofs about it.

Strings are modelled by Lean `String`; Python's `needle in hay` substring
test is `strHas hay needle`, Python's `str.lower()` is `strLower`, and
Python's `str.strip()` is `String.trim`.  Live-page queries
(`find_elements`, waits) are modelled by lists of element records carried
in a page structure: each list is the result of the corresponding query
on the page the code observes at that step.
-/

namespace Ecobee

/-- `isPrefList n h` is true when the char list `n` is a prefix of `h`. -/
def isPrefList : List Char → List Char → Bool
  | [], _ => true
  | _ :: _, [] => false
  | a :: as, b :: bs => a == b && isPrefList as bs

/-- `subList n h` is true when `n` occurs as a contiguous sublist of `h`
(Python's `n in h` on strings). -/
def subList (needle : List Char) : List Char → Bool
  | [] => isPrefList needle []
  | c :: t => isPrefList needle (c :: t) || subList needle t

/-- Python `needle in hay` for strings. -/
def strHas (hay needle : String) : Bool := subList needle.data hay.data

/-- Python `s.lower()` (ASCII case folding, as used by the portal strings). -/
def strLower (s : String) : String := String.mk (s.data.map Char.toLower)

theorem isPrefList_map_toLower {a b : List Char} (h : isPrefList a b = true) :
    isPrefList (a.map Char.toLower) (b.map Char.toLower) = true := by
  induction a generalizing b with
  | nil => simp [isPrefList]
  | cons x xs ih =>
    cases b with
    | nil => simp [isPrefList] at h
    | cons y ys =>
      simp only [isPrefList, Bool.and_eq_true, beq_iff_eq] at h
      simp only [List.map, isPrefList, Bool.and_eq_true, beq_iff_eq]
      exact ⟨by rw [h.1], ih h.2⟩

theorem subList_map_toLower {n h : List Char} (hs : subList n h = true) :
    subList (n.map Char.toLower) (h.map Char.toLower) = true := by
  induction h with
  | nil =>
    cases n with
    | nil => simp [subList, isPrefList]
    | cons c t => simp [subList, isPrefList] at hs
  | cons c t ih =>
    simp only [subList, Bool.or_eq_true] at hs
    simp only [List.map, subList, Bool.or_eq_true]
    rcases hs with hp | hr
    · exact Or.inl (isPrefList_map_toLower hp)
    · exact Or.inr (ih hr)

/-- Case-sensitive containment implies case-insensitive containment. -/
theorem strHas_lower_of_strHas {hay needle : String}
    (h : strHas hay needle = true) :
    strHas (strLower hay) (strLower needle) = true :=
  subList_map_toLower h

/-- Python `s.strip()`: drop leading and trailing whitespace. -/
def strTrim (s : String) : String :=
  String.mk (((s.data.dropWhile Char.isWhitespace).reverse.dropWhile
    Char.isWhitespace).reverse)

/-! ## Element Locator: `_find_input_field` (ecobee_automation.py, 348-394)

An input element is modelled by the five attributes the code inspects.
A missing attribute is the empty string (the code replaces `None` by `''`). -/

structure InputElem where
  itype : String
  iname : String
  elemId : String
  placeholder : String
  autocomplete : String
deriving DecidableEq

/-- The lowercased attribute concatenation
`f"{input_type} {input_name} {input_id} {input_placeholder} {input_autocomplete}"`
built at ecobee_automation.py line 382 (each attribute is lowercased first). -/
def attrConcat (i : InputElem) : String :=
  strLower i.itype ++ " " ++ strLower i.iname ++ " " ++ strLower i.elemId ++ " "
    ++ strLower i.placeholder ++ " " ++ strLower i.autocomplete

/-- The wait on `input[type="email"]` / `input[type="password"]`: first element
of the page whose declared type is exactly `t`. -/
def typeExact (t : String) (inputs : List InputElem) : Option InputElem :=
  inputs.find? (fun i => i.itype == t)

/-- The attribute scan of lines 373-387: first input one of whose keywords
occurs (lowercased) in the attribute concatenation. -/
def keywordScan (keywords : List String) (inputs : List InputElem) : Option InputElem :=
  inputs.find? (fun i => keywords.any (fun kw => strHas (attrConcat i) (strLower kw)))

/-- `_find_input_field(keywords, timeout)` on a page whose input list is
`inputs`: the type-exact probes for `email` and `password` run first (the
wait returns the first match or times out), then the attribute scan. -/
def findInputField (keywords : List String) (inputs : List InputElem) :
    Option InputElem :=
  if keywords.contains "email" && (typeExact "email" inputs).isSome then
    typeExact "email" inputs
  else if keywords.contains "password" && (typeExact "password" inputs).isSome then
    typeExact "password" inputs
  else
    keywordScan keywords inputs

/-! ## Page model for the consumer portal

A generic clickable element: its rendered text, whether it is displayed, and
whether clicking it (resp. its immediate parent) succeeds — a Selenium click
that throws is modelled by `clickOk = false`. -/

structure Elem where
  text : String
  displayed : Bool
  clickOk : Bool
  parentClickOk : Bool
deriving DecidableEq

/-- A `<label>` element: its text, its `for` attribute, whether clicking the
label succeeds, and whether resolving + clicking the associated control by
its `for` linkage succeeds. -/
structure LabelElem where
  text : String
  forId : Option String
  clickOk : Bool
  radioClickOk : Bool
deriving DecidableEq

/-- The portion of the live portal page the automation queries.  Each list is
the result of the corresponding `find_elements` query, in DOM order:
`anchors` = `By.TAG_NAME 'a'`, `allElems` = the free-text XPath pool,
`cards` = the `[class*="device"], [class*="thermostat"], [class*="card"]`
query, `systemElems` = elements whose text contains `System`/`SYSTEM`,
`labels` = `By.TAG_NAME 'label'`, `modeElems` = the lowercased-text XPath
pool for the mode fallback, `bodyText` = the body text (`none` when the read
raises). -/
structure PortalPage where
  currentUrl : String
  anchors : List Elem
  allElems : List Elem
  cards : List Elem
  systemElems : List Elem
  labels : List LabelElem
  modeElems : List Elem
  bodyText : Option String
deriving DecidableEq

/-! ## Device Selector: `select_thermostat` (ecobee_automation.py, 620-685)

Each of the three strategies is wrapped in its own `try`: a click that
throws aborts that whole strategy (the loop is not resumed) and control
falls to the next one. -/

/-- Strategy 3 (lines 668-677): first card whose lowered text contains the
lowered name; a throwing click falls through to the final `return False`. -/
def selectStage3 (name : String) (p : PortalPage) : Bool :=
  match p.cards.find? (fun c => strHas (strLower c.text) (strLower name)) with
  | some c => c.clickOk
  | none => false

/-- Strategy 2 (lines 652-665): elements matching the case-sensitive XPath
`contains(text(), name)`; the first displayed one is clicked (falling back to
its parent); if both clicks throw, the strategy aborts to strategy 3. -/
def selectStage2 (name : String) (p : PortalPage) : Bool :=
  match (p.allElems.filter (fun e => strHas e.text name)).find?
      (fun e => e.displayed) with
  | some e => if e.clickOk || e.parentClickOk then true else selectStage3 name p
  | none => selectStage3 name p

/-- Strategy 1 + dispatch (lines 640-649): first anchor whose lowered text
contains the lowered name is clicked; a throwing click aborts to strategy 2. -/
def selectThermostat (name : String) (p : PortalPage) : Bool :=
  match p.anchors.find? (fun a => strHas (strLower a.text) (strLower name)) with
  | some a => if a.clickOk then true else selectStage2 name p
  | none => selectStage2 name p

/-- The device name occurs nowhere (case-insensitively) in the text of any
element of the devices page. -/
def nameAbsent (name : String) (p : PortalPage) : Prop :=
  (∀ e ∈ p.anchors, strHas (strLower e.text) (strLower name) = false) ∧
  (∀ e ∈ p.allElems, strHas (strLower e.text) (strLower name) = false) ∧
  (∀ e ∈ p.cards, strHas (strLower e.text) (strLower name) = false)

instance (name : String) (p : PortalPage) : Decidable (nameAbsent name p) := by
  unfold nameAbsent; infer_instance

/-! ## Observable effects

A trace of the browser-side effects relevant to the verified properties:
navigations, waits, locator probes (with the timeout the code passes),
clicks, field fills and diagnostic screenshots. -/

inductive Ev where
  | navigate (url : String)
  | sleepSec (n : Nat)
  | findInput (keywords : List String) (timeout : Nat)
  | jsClick
  | click
  | fill (field : String)
  | screenshot (tag : String)
deriving DecidableEq

/-- `_take_screenshot(tag)` (lines 920-937): emits a screenshot only when
`automation.screenshot_on_error` is enabled (and a driver exists) —
`enabled` folds both guards. -/
def shot (enabled : Bool) (tag : String) : List Ev :=
  if enabled then [Ev.screenshot tag] else []

/-- Screenshot file name `f"{name}_{timestamp}.png"` (line 930). -/
def screenshotFilename (tag : String) (timestamp : Nat) : String :=
  tag ++ "_" ++ toString timestamp ++ ".png"

def loginUrl : String := "https://auth.ecobee.com/u/login"

def devicesUrl : String := "https://www.ecobee.com/consumerportal/index.html#/devices"

/-! ## Status Reader: `get_heating_status` (ecobee_automation.py, 687-742) -/

/-- `HeatingStatus` (lines 30-36).  Temperatures are modelled as rationals;
the code performs no arithmetic on them.  Every field defaults to `none`. -/
structure HeatingStatus where
  current_temp : Option ℚ := none
  target_temp : Option ℚ := none
  mode : Option String := none
  is_heating : Option Bool := none
deriving DecidableEq

/-- Mode detection from the body text (lines 724-734): `aux` wins over
`heat`; a failed body-text read (`bodyText = none`) leaves the mode unset. -/
def detectedMode (bodyText : Option String) : Option String :=
  match bodyText with
  | none => none
  | some t =>
    if strHas (strLower t) "aux" then some "aux"
    else if strHas (strLower t) "heat" then some "heat"
    else none

/-- `get_heating_status`: navigation and the System-tile click only mutate
the page (already reflected in `p`); a failed thermostat selection raises
`EcobeeAutomationError`, re-raised by the outer handler after a
`status_error` screenshot; otherwise a fresh `HeatingStatus` is returned
with only `mode` possibly populated — the temperature fields and
`is_heating` are never assigned. -/
def getHeatingStatus (name : String) (p : PortalPage) : Except String HeatingStatus :=
  if selectThermostat name p = false then
    Except.error "Status retrieval failed: Failed to select thermostat"
  else
    Except.ok { mode := detectedMode p.bodyText }

/-! ## Mode Toggler: `set_heating_mode` (ecobee_automation.py, 744-843) -/

/-- The validity check of lines 757-759. -/
def validModes : List String := ["aux", "heat"]

/-- The label-match test of line 798:
`mode in label_text or (mode == 'aux' and 'auxil' in label_text)` where
`label_text = label.text.strip().lower()` and `mode` is already lowered. -/
def matchesModeLabel (mode : String) (l : LabelElem) : Bool :=
  strHas (strLower (strTrim l.text)) mode ||
    (mode == "aux" && strHas (strLower (strTrim l.text)) "auxil")

/-- Activating a matched label (lines 800-818): click the label; if that
throws, resolve the control named by its `for` attribute and click that. -/
def labelActivate (l : LabelElem) : Bool :=
  l.clickOk || (l.forId.isSome && l.radioClickOk)

/-- The label loop of lines 794-818: a matching label whose activation
fails is logged and the loop continues with the next label. -/
def labelsStage (mode : String) : List LabelElem → Bool
  | [] => false
  | l :: rest =>
    if matchesModeLabel mode l then
      if labelActivate l then true else labelsStage mode rest
    else labelsStage mode rest

/-- The XPath fallback of lines 821-831: displayed elements whose lowered
text contains the mode; a throwing click is swallowed and the loop
continues. -/
def modeTextStage (mode : String) : List Elem → Bool
  | [] => false
  | e :: rest =>
    if e.displayed && strHas (strLower e.text) mode then
      if e.clickOk then true else modeTextStage mode rest
    else modeTextStage mode rest

/-- Outcome of the System-tile block (lines 775-788): `abort` models the
`except` branch that returns `False` directly (both the element click and
its parent click threw); otherwise execution proceeds. -/
inductive StageRes where
  | ok
  | abort
deriving DecidableEq

def systemStage (es : List Elem) : StageRes :=
  match es.find? (fun e => e.displayed) with
  | some e => if e.clickOk || e.parentClickOk then StageRes.ok else StageRes.abort
  | none => StageRes.ok

/-- Environment of one `set_heating_mode` call: the page and the
screenshot-on-error configuration. -/
structure ModeEnv where
  page : PortalPage
  screenshotOn : Bool
deriving DecidableEq

/-- `set_heating_mode(mode, thermostat_name)`.  An invalid mode raises
`ValueError` before any navigation or click; the outer handler (lines
840-843) catches it, captures a `mode_change_error` screenshot and returns
`False`.  A failed selection raises `EcobeeAutomationError`, caught by the
same handler.  The System-tile `except` (line 788) and the final
fall-through (line 838) return `False` without a screenshot. -/
def setHeatingMode (modeRaw name : String) (env : ModeEnv) : Bool × List Ev :=
  let mode := strLower modeRaw
  if validModes.contains mode = false then
    (false, shot env.screenshotOn "mode_change_error")
  else
    let nav : List Ev :=
      if strHas env.page.currentUrl devicesUrl then []
      else [Ev.navigate devicesUrl, Ev.sleepSec 2]
    if selectThermostat name env.page = false then
      (false, nav ++ shot env.screenshotOn "mode_change_error")
    else
      match systemStage env.page.systemElems with
      | StageRes.abort => (false, nav)
      | StageRes.ok =>
        if labelsStage mode env.page.labels then
          (true, nav ++ [Ev.click, Ev.sleepSec 5])
        else if modeTextStage mode env.page.modeElems then
          (true, nav ++ [Ev.click, Ev.sleepSec 5])
        else (false, nav)

/-! ## Login State Machine: `login` (ecobee_automation.py, 127-225)

Each locator call observes a different live page (the continue click loads
a new one), so the outcome of each call is an oracle field of the run
environment.  Clicks and fills on found elements are assumed not to throw
(the `except` handler of lines 222-225 is outside the verified claims). -/

structure LoginEnv where
  username : Option String
  password : Option String
  usernameFieldFound : Bool
  probeFound : Bool
  probeDisplayed : Bool
  continueFound : Bool
  passwordFound : Bool
  submitFound : Bool
  urlAfterSubmit : String
  screenshotOn : Bool
deriving DecidableEq

/-- Default timeout of `_find_input_field` (line 348), used for the
username lookup at line 149. -/
def usernameTimeout : Nat := 5

/-- Timeout of the password branch-detection probe (line 163). -/
def branchProbeTimeout : Nat := 2

/-- Timeout of the post-branch password lookup (line 186). -/
def passwordRetryTimeout : Nat := 10

/-- Continuation of `login` from the password lookup of line 186 onward,
with `t` the trace accumulated so far. -/
def loginAfterBranch (env : LoginEnv) (t : List Ev) : Bool × List Ev :=
  let t2 := t ++ [Ev.findInput ["password", "passwd", "pass"] passwordRetryTimeout]
  if env.passwordFound = false then
    (false, t2 ++ shot env.screenshotOn "password_field_not_found")
  else
    let t3 := t2 ++ [Ev.fill "password", Ev.sleepSec 1]
    if env.submitFound = false then
      (false, t3 ++ shot env.screenshotOn "submit_button_not_found")
    else
      let t4 := t3 ++ [Ev.click, Ev.sleepSec 2]
      if strHas (strLower env.urlAfterSubmit) "auth.ecobee.com" then
        (true, t4 ++ shot env.screenshotOn "login_verification_needed" ++ [Ev.sleepSec 5])
      else (true, t4)

/-- `login()`: missing credentials fail without browser contact; then the
username lookup, the branch probe (present **and** displayed), the
two-step continue click when the probe fails, the password retry, the
submit, and the post-submit verification of lines 208-220 — which, when
the URL is still on the authentication host, captures a
`login_verification_needed` screenshot, sleeps 5 seconds, and then falls
through to `return True` regardless. -/
def login (env : LoginEnv) : Bool × List Ev :=
  if env.username.isNone || env.password.isNone then (false, [])
  else
    let t1 : List Ev := [Ev.navigate loginUrl, Ev.sleepSec 3,
      Ev.findInput ["email", "username", "user"] usernameTimeout]
    if env.usernameFieldFound = false then
      (false, t1 ++ shot env.screenshotOn "username_field_not_found")
    else
      let t2 := t1 ++ [Ev.fill "username", Ev.sleepSec 1,
        Ev.findInput ["password"] branchProbeTimeout]
      if env.probeFound && env.probeDisplayed then
        loginAfterBranch env t2
      else if env.continueFound then
        loginAfterBranch env (t2 ++ [Ev.jsClick, Ev.sleepSec 3])
      else
        (false, t2 ++ shot env.screenshotOn "continue_button_not_found")

/-! ## Session lifecycle (ecobee_automation.py, 71-125 and 939-955)

`__enter__` runs `setup_driver`; the Python `with` statement skips
`__exit__` when `__enter__` raises.  `setup_driver` assigns `self.driver`
at line 114 and can still raise afterwards (timeout configuration, lines
117-118); its handler wraps the exception and re-raises without cleanup. -/

inductive SetupOutcome where
  | ok
  | failBeforeCreate
  | failAfterCreate
deriving DecidableEq

structure RunEnv where
  setup : SetupOutcome
  bodyRaises : Bool
deriving DecidableEq

/-- `setup_driver`: (raised?, driver assigned?). -/
def setupDriver : SetupOutcome → Bool × Bool
  | SetupOutcome.ok => (false, true)
  | SetupOutcome.failBeforeCreate => (true, false)
  | SetupOutcome.failAfterCreate => (true, true)

structure RunState where
  driverCreated : Bool
  closeCalled : Bool
deriving DecidableEq

/-- `close()` (lines 939-946): quits only when a driver exists. -/
def closeDriver (s : RunState) : RunState :=
  if s.driverCreated then { s with closeCalled := true } else s

/-- One `with EcobeeAutomation(...) as automation:` run.  When `__enter__`
raises, `__exit__` is skipped; otherwise the body runs (normally or
raising) and `__exit__` calls `close` either way. -/
def runWithAutomation (env : RunEnv) : RunState :=
  let r := setupDriver env.setup
  let s0 : RunState := { driverCreated := r.2, closeCalled := false }
  if r.1 then s0 else closeDriver s0

/-! ## Run Coordinator: `run_cli_command` (api_server.py, 28-72)

The module-wide `threading.Lock` is acquired with `blocking=False`; a
failed acquisition returns the busy payload with HTTP 409 immediately.
A successful acquisition runs the CLI subprocess and releases the lock in
the `finally` block. -/

structure ApiResult where
  success : Bool
  errorMsg : Option String
  output : Option String
  retCode : Option Int
  httpStatus : Nat
deriving DecidableEq

/-- The immediate rejection of lines 36-37. -/
def busyResult : ApiResult :=
  { success := false, errorMsg := some "Another automation is already running",
    output := none, retCode := none, httpStatus := 409 }

/-- Outcome of the CLI subprocess (exit code and combined output, a
120-second timeout, or an unexpected exception). -/
inductive CliOutcome where
  | exited (code : Int) (out : String)
  | timedOut
  | raised (msg : String)
deriving DecidableEq

/-- The result mapping of lines 58-70 for a run that holds the lock. -/
def execCli : CliOutcome → ApiResult
  | CliOutcome.exited code out =>
    if code == 0 then
      { success := true, errorMsg := none, output := some out,
        retCode := none, httpStatus := 200 }
    else
      { success := false, errorMsg := some out, output := none,
        retCode := some code, httpStatus := 500 }
  | CliOutcome.timedOut =>
    { success := false, errorMsg := some "Command timed out", output := none,
      retCode := none, httpStatus := 500 }
  | CliOutcome.raised m =>
    { success := false, errorMsg := some m, output := none,
      retCode := none, httpStatus := 500 }

/-- `run_cli_command` against a lock state: (HTTP result, did the
subprocess execute?, lock state after return). -/
def runCliCommand (locked : Bool) (o : CliOutcome) : ApiResult × Bool × Bool :=
  if locked then (busyResult, false, locked)
  else (execCli o, true, false)

/-- Two requests with zero gap: both perform their non-blocking acquire
before either run has released — the second request observes the lock held
by the first.  `firstIsA` selects which arrives first.  Returns
((result, executed?) for A, (result, executed?) for B). -/
def zeroGapRuns (firstIsA : Bool) (oa ob : CliOutcome) :
    (ApiResult × Bool) × (ApiResult × Bool) :=
  if firstIsA then
    let ra := runCliCommand false oa
    let rb := runCliCommand true ob
    ((ra.1, ra.2.1), (rb.1, rb.2.1))
  else
    let rb := runCliCommand false ob
    let ra := runCliCommand true oa
    ((ra.1, ra.2.1), (rb.1, rb.2.1))

/-! ## Helper lemmas -/

/-- When the device name occurs nowhere on the page, all three search
strategies of `select_thermostat` fail. -/
theorem selectThermostat_false_of_absent {name : String} {p : PortalPage}
    (h : nameAbsent name p) : selectThermostat name p = false := by
  obtain ⟨h1, h2, h3⟩ := h
  have e3 : selectStage3 name p = false := by
    unfold selectStage3
    have hc : p.cards.find? (fun c => strHas (strLower c.text) (strLower name)) = none :=
      List.find?_eq_none.mpr (fun c hc => by simp [h3 c hc])
    simp [hc]
  have e2 : selectStage2 name p = false := by
    unfold selectStage2
    have hf : p.allElems.filter (fun e => strHas e.text name) = [] := by
      apply List.filter_eq_nil_iff.mpr
      intro e he
      simp only [Bool.not_eq_true]
      by_contra hx
      have hx' : strHas e.text name = true := by
        cases hxx : strHas e.text name
        · exact absurd hxx hx
        · rfl
      have := strHas_lower_of_strHas hx'
      rw [h2 e he] at this
      exact Bool.false_ne_true this
    simp [hf, e3]
  unfold selectThermostat
  have ha : p.anchors.find? (fun a => strHas (strLower a.text) (strLower name)) = none :=
    List.find?_eq_none.mpr (fun a ha => by simp [h1 a ha])
  simp [ha, e2]

/-- Whatever the outcome, the trace of `loginAfterBranch` extends the
accumulated trace followed by the 10-second password re-attempt. -/
theorem loginAfterBranch_retry_event (env : LoginEnv) (t : List Ev) :
    Ev.findInput ["password", "passwd", "pass"] passwordRetryTimeout ∈
      (loginAfterBranch env t).2 := by
  simp only [loginAfterBranch]
  split_ifs <;> simp [shot]

/-- On the suspect path (password and submit found, URL still on the
authentication host) `loginAfterBranch` reports success after a
`login_verification_needed` screenshot and a 5-second grace wait. -/
theorem loginAfterBranch_suspect (env : LoginEnv) (t : List Ev)
    (hpw : env.passwordFound = true) (hsb : env.submitFound = true)
    (hauth : strHas (strLower env.urlAfterSubmit) "auth.ecobee.com" = true)
    (hs : env.screenshotOn = true) :
    (loginAfterBranch env t).1 = true ∧
    Ev.screenshot "login_verification_needed" ∈ (loginAfterBranch env t).2 ∧
    Ev.sleepSec 5 ∈ (loginAfterBranch env t).2 := by
  simp [loginAfterBranch, hpw, hsb, hauth, shot, hs]

/-- Every result of `execCli` carries HTTP status 200 or 500. -/
theorem execCli_status (o : CliOutcome) :
    (execCli o).httpStatus = 200 ∨ (execCli o).httpStatus = 500 := by
  cases o with
  | exited c out =>
    by_cases h : (c == 0) = true
    · simp [execCli, h]
    · simp [execCli, h]
  | timedOut => simp [execCli]
  | raised m => simp [execCli]

/-- A result produced by an executed run is never the busy rejection. -/
theorem execCli_ne_busy (o : CliOutcome) : execCli o ≠ busyResult := by
  intro h
  have := congrArg ApiResult.httpStatus h
  rcases execCli_status o with h2 | h2 <;> simp [busyResult, h2] at this

/-! ## Claims -/

/-- C2: every successful status read returns a `HeatingStatus` whose
`is_heating` equals `current < target && mode ∈ {heat, auto}` whenever
current temperature, target temperature and mode are all present, and is
`none` whenever either temperature or the mode is missing.  In this code
the temperature fields are never populated, so the derivation clause holds
vacuously and `is_heating` is always `none` (also recorded explicitly in
the last three conjuncts). -/
theorem read_status_is_heating_derived (name : String) (p : PortalPage)
    (st : HeatingStatus) (hok : getHeatingStatus name p = Except.ok st) :
    (∀ c t m, st.current_temp = some c → st.target_temp = some t →
      st.mode = some m →
      st.is_heating = some (decide (c < t) && (m == "heat" || m == "auto"))) ∧
    ((st.current_temp = none ∨ st.target_temp = none ∨ st.mode = none) →
      st.is_heating = none) ∧
    st.current_temp = none ∧ st.target_temp = none ∧ st.is_heating = none := by
  unfold getHeatingStatus at hok
  by_cases hsel : selectThermostat name p = false
  · simp [hsel] at hok
  · simp [hsel] at hok
    refine ⟨?_, ?_, ?_, ?_, ?_⟩
    · intro c t m hc
      rw [← hok] at hc
      simp at hc
    · intro _
      rw [← hok]
    · rw [← hok]
    · rw [← hok]
    · rw [← hok]

/-- C2 witness: a concrete successful read on a page whose body shows
`heat`: the returned status has `mode = some "heat"` and the derivation
conditions hold. -/
theorem read_status_is_heating_derived_witness :
    (∀ c t m, ({ mode := some "heat" } : HeatingStatus).current_temp = some c →
      ({ mode := some "heat" } : HeatingStatus).target_temp = some t →
      ({ mode := some "heat" } : HeatingStatus).mode = some m →
      ({ mode := some "heat" } : HeatingStatus).is_heating =
        some (decide (c < t) && (m == "heat" || m == "auto"))) ∧
    ((({ mode := some "heat" } : HeatingStatus).current_temp = none ∨
      ({ mode := some "heat" } : HeatingStatus).target_temp = none ∨
      ({ mode := some "heat" } : HeatingStatus).mode = none) →
      ({ mode := some "heat" } : HeatingStatus).is_heating = none) ∧
    ({ mode := some "heat" } : HeatingStatus).current_temp = none ∧
    ({ mode := some "heat" } : HeatingStatus).target_temp = none ∧
    ({ mode := some "heat" } : HeatingStatus).is_heating = none :=
  read_status_is_heating_derived "Main Floor"
    ⟨devicesUrl, [⟨"Main Floor", true, true, true⟩], [], [], [], [], [],
      some "Currently set to heat"⟩
    { mode := some "heat" } (by rfl)

/-- C10: whenever the lowercased body text contains `aux`, the detected
mode is `aux` (even when `heat` also occurs); mode `heat` is reported only
when `aux` is absent; and a page showing only `Auxiliary Heat` yields mode
`aux`. -/
theorem status_mode_aux_priority (name : String) (p : PortalPage) (t : String)
    (st : HeatingStatus) (hok : getHeatingStatus name p = Except.ok st)
    (hbody : p.bodyText = some t) :
    (strHas (strLower t) "aux" = true → st.mode = some "aux") ∧
    (st.mode = some "heat" →
      strHas (strLower t) "aux" = false ∧ strHas (strLower t) "heat" = true) ∧
    detectedMode (some "Auxiliary Heat") = some "aux" := by
  unfold getHeatingStatus at hok
  by_cases hsel : selectThermostat name p = false
  · simp [hsel] at hok
  · simp [hsel] at hok
    have hmode : st.mode = detectedMode (some t) := by rw [← hok, hbody]
    refine ⟨?_, ?_, by decide⟩
    · intro ha
      rw [hmode]
      simp [detectedMode, ha]
    · intro hh
      rw [hmode] at hh
      by_cases ha : strHas (strLower t) "aux" = true
      · simp [detectedMode, ha] at hh
      · have ha' : strHas (strLower t) "aux" = false := by
          cases hx : strHas (strLower t) "aux"
          · rfl
          · exact absurd hx ha
        refine ⟨ha', ?_⟩
        by_cases hht : strHas (strLower t) "heat" = true
        · exact hht
        · simp [detectedMode, ha', hht] at hh

/-- C10 witness: a page whose body reads exactly `Auxiliary Heat` — the
lowered text contains both `aux` and `heat`, and the reported mode is
`aux`. -/
theorem status_mode_aux_priority_witness :
    (strHas (strLower "Auxiliary Heat") "aux" = true →
      ({ mode := some "aux" } : HeatingStatus).mode = some "aux") ∧
    (({ mode := some "aux" } : HeatingStatus).mode = some "heat" →
      strHas (strLower "Auxiliary Heat") "aux" = false ∧
      strHas (strLower "Auxiliary Heat") "heat" = true) ∧
    detectedMode (some "Auxiliary Heat") = some "aux" :=
  status_mode_aux_priority "Main Floor"
    ⟨devicesUrl, [⟨"Main Floor", true, true, true⟩], [], [], [], [], [],
      some "Auxiliary Heat"⟩
    "Auxiliary Heat" { mode := some "aux" } (by rfl) rfl

/-- C7: on a page holding both a type-exact match (an input whose declared
type is `password`) and a keyword-substring attribute match, the locator
returns the first type-exact match, never the keyword-substring match
(the email probe must not preempt, which is the case for every password
keyword list the code uses). -/
theorem locator_type_exact_wins (keywords : List String) (inputs : List InputElem)
    (hpw : keywords.contains "password" = true)
    (hem : keywords.contains "email" = false ∨ typeExact "email" inputs = none)
    (hx : (typeExact "password" inputs).isSome = true)
    (_hkw : (keywordScan keywords inputs).isSome = true) :
    findInputField keywords inputs = typeExact "password" inputs ∧
    ∀ i, findInputField keywords inputs = some i → i.itype = "password" := by
  have hfirst : (keywords.contains "email" && (typeExact "email" inputs).isSome) = false := by
    rcases hem with h | h
    · rw [h, Bool.false_and]
    · rw [h]
      exact Bool.and_false _
  have heq : findInputField keywords inputs = typeExact "password" inputs := by
    unfold findInputField
    rw [hfirst, hpw, hx]
    simp
  refine ⟨heq, fun i hi => ?_⟩
  rw [heq] at hi
  have := List.find?_some hi
  simpa using this

/-- C7 witness: the page lists a text input whose id contains the keyword
`pass` *before* a password-typed input; the locator still returns the
password-typed input. -/
theorem locator_type_exact_wins_witness :
    findInputField ["password", "passwd", "pass"]
        [⟨"text", "username", "pass-hint", "", ""⟩, ⟨"password", "", "", "", ""⟩] =
      typeExact "password"
        [⟨"text", "username", "pass-hint", "", ""⟩, ⟨"password", "", "", "", ""⟩] ∧
    ∀ i, findInputField ["password", "passwd", "pass"]
        [⟨"text", "username", "pass-hint", "", ""⟩, ⟨"password", "", "", "", ""⟩] =
        some i → i.itype = "password" :=
  locator_type_exact_wins ["password", "passwd", "pass"]
    [⟨"text", "username", "pass-hint", "", ""⟩, ⟨"password", "", "", "", ""⟩]
    (by decide) (Or.inl (by decide)) (by decide) (by decide)

/-- C3: for two run requests with zero gap (both non-blocking acquires
happen before either release), exactly one acquires the single-flight lock
and executes its run; the other is rejected immediately with the busy
result, which is distinguishable from every result an executed run can
produce. -/
theorem run_coordinator_single_flight (firstIsA : Bool) (oa ob : CliOutcome) :
    (zeroGapRuns firstIsA oa ob =
      if firstIsA then ((execCli oa, true), (busyResult, false))
      else ((busyResult, false), (execCli ob, true))) ∧
    ((zeroGapRuns firstIsA oa ob).1.2 ≠ (zeroGapRuns firstIsA oa ob).2.2) ∧
    (∀ o : CliOutcome, execCli o ≠ busyResult) := by
  refine ⟨?_, ?_, execCli_ne_busy⟩ <;>
    cases firstIsA <;> simp [zeroGapRuns, runCliCommand]

/-- C5 counterexample: a run whose `setup_driver` fails after the driver
was assigned (e.g. while configuring timeouts) exits its scope with the
driver created but `close` never invoked — the `with` statement skips
`__exit__` when `__enter__` raises. -/
theorem session_setup_failure_leaks_driver :
    (runWithAutomation ⟨SetupOutcome.failAfterCreate, false⟩).driverCreated = true ∧
    (runWithAutomation ⟨SetupOutcome.failAfterCreate, false⟩).closeCalled = false := by
  decide

/-- C5 (amended): `close` runs on every exit path of the run scope once
setup has completed, whatever the body does; a setup failure before driver
creation leaves nothing to release; the driver leaks exactly when setup
fails after the driver was created. -/
theorem session_teardown_after_successful_setup (env : RunEnv) :
    (env.setup = SetupOutcome.ok → (runWithAutomation env).closeCalled = true) ∧
    (env.setup = SetupOutcome.failBeforeCreate →
      (runWithAutomation env).driverCreated = false) ∧
    (((runWithAutomation env).driverCreated = true ∧
      (runWithAutomation env).closeCalled = false) ↔
      env.setup = SetupOutcome.failAfterCreate) := by
  obtain ⟨s, b⟩ := env
  cases s <;> simp [runWithAutomation, setupDriver, closeDriver]

/-- C5 amended witness: a normal run (setup succeeds, body completes):
the driver is closed. -/
theorem session_teardown_after_successful_setup_witness :
    ((⟨SetupOutcome.ok, false⟩ : RunEnv).setup = SetupOutcome.ok →
      (runWithAutomation ⟨SetupOutcome.ok, false⟩).closeCalled = true) ∧
    ((⟨SetupOutcome.ok, false⟩ : RunEnv).setup = SetupOutcome.failBeforeCreate →
      (runWithAutomation ⟨SetupOutcome.ok, false⟩).driverCreated = false) ∧
    (((runWithAutomation ⟨SetupOutcome.ok, false⟩).driverCreated = true ∧
      (runWithAutomation ⟨SetupOutcome.ok, false⟩).closeCalled = false) ↔
      (⟨SetupOutcome.ok, false⟩ : RunEnv).setup = SetupOutcome.failAfterCreate) :=
  session_teardown_after_successful_setup ⟨SetupOutcome.ok, false⟩

/-- C4 counterexample: `set_heating_mode("cool")` on an otherwise empty
page with screenshots enabled does reject the call and performs no
navigation or click, but the generic handler that catches the
`ValueError` **does** capture a `mode_change_error` screenshot — a browser
interaction the claim rules out. -/
theorem invalid_mode_captures_screenshot :
    (setHeatingMode "cool" "Main Floor"
      ⟨⟨"about:blank", [], [], [], [], [], [], none⟩, true⟩).1 = false ∧
    Ev.screenshot "mode_change_error" ∈
      (setHeatingMode "cool" "Main Floor"
        ⟨⟨"about:blank", [], [], [], [], [], [], none⟩, true⟩).2 := by
  decide

/-- C4 (amended): a mode outside `{aux, heat}` is rejected before any page
navigation or element click and the call returns `false`; the only browser
interaction on this path is the diagnostic `mode_change_error` screenshot
taken by the surrounding failure handler (when screenshots are enabled). -/
theorem invalid_mode_rejected_before_interaction (mode name : String)
    (env : ModeEnv) (h : validModes.contains (strLower mode) = false) :
    (setHeatingMode mode name env).1 = false ∧
    (setHeatingMode mode name env).2 = shot env.screenshotOn "mode_change_error" ∧
    (∀ u, Ev.navigate u ∉ (setHeatingMode mode name env).2) ∧
    Ev.click ∉ (setHeatingMode mode name env).2 := by
  have hpair : setHeatingMode mode name env =
      (false, shot env.screenshotOn "mode_change_error") := by
    simp [setHeatingMode, h]
    intro hmem
    simp at h
    exact absurd hmem h
  rw [hpair]
  refine ⟨rfl, rfl, ?_, ?_⟩ <;> cases hs : env.screenshotOn <;> simp [shot]

/-- C4 amended witness: the concrete invalid mode `cool` with screenshots
enabled. -/
theorem invalid_mode_rejected_before_interaction_witness :
    (setHeatingMode "cool" "Main Floor"
      ⟨⟨"about:blank", [], [], [], [], [], [], none⟩, true⟩).1 = false ∧
    (setHeatingMode "cool" "Main Floor"
      ⟨⟨"about:blank", [], [], [], [], [], [], none⟩, true⟩).2 =
      shot true "mode_change_error" ∧
    (∀ u, Ev.navigate u ∉ (setHeatingMode "cool" "Main Floor"
      ⟨⟨"about:blank", [], [], [], [], [], [], none⟩, true⟩).2) ∧
    Ev.click ∉ (setHeatingMode "cool" "Main Floor"
      ⟨⟨"about:blank", [], [], [], [], [], [], none⟩, true⟩).2 :=
  invalid_mode_rejected_before_interaction "cool" "Main Floor"
    ⟨⟨"about:blank", [], [], [], [], [], [], none⟩, true⟩ (by decide)

/-- C9: when the device name occurs nowhere on the devices page,
`select_thermostat` fails after exhausting its three strategies, and
`set_heating_mode` returns `false` having captured a screenshot whose
filename tag is `mode_change_error` (the file is named
`mode_change_error_<timestamp>.png`). -/
theorem device_absent_mode_set_fails (mode name : String) (env : ModeEnv)
    (_hm : validModes.contains (strLower mode) = true)
    (habs : nameAbsent name env.page)
    (hs : env.screenshotOn = true) :
    selectThermostat name env.page = false ∧
    (setHeatingMode mode name env).1 = false ∧
    Ev.screenshot "mode_change_error" ∈ (setHeatingMode mode name env).2 ∧
    screenshotFilename "mode_change_error" 1700000000 =
      "mode_change_error_1700000000.png" := by
  have hsel := selectThermostat_false_of_absent habs
  refine ⟨hsel, ?_, ?_, by decide⟩ <;>
    simp [setHeatingMode, hsel, shot, hs] <;> split <;> simp

/-- C9 witness: device `Basement` requested on a page listing only
`Main Floor` and `Upstairs`. -/
theorem device_absent_mode_set_fails_witness :
    selectThermostat "Basement"
      (⟨devicesUrl, [⟨"Main Floor", true, true, true⟩],
        [⟨"Upstairs", true, true, true⟩], [⟨"My ecobee", true, true, true⟩],
        [], [], [], none⟩ : PortalPage) = false ∧
    (setHeatingMode "aux" "Basement"
      ⟨⟨devicesUrl, [⟨"Main Floor", true, true, true⟩],
        [⟨"Upstairs", true, true, true⟩], [⟨"My ecobee", true, true, true⟩],
        [], [], [], none⟩, true⟩).1 = false ∧
    Ev.screenshot "mode_change_error" ∈
      (setHeatingMode "aux" "Basement"
        ⟨⟨devicesUrl, [⟨"Main Floor", true, true, true⟩],
          [⟨"Upstairs", true, true, true⟩], [⟨"My ecobee", true, true, true⟩],
          [], [], [], none⟩, true⟩).2 ∧
    screenshotFilename "mode_change_error" 1700000000 =
      "mode_change_error_1700000000.png" :=
  device_absent_mode_set_fails "aux" "Basement"
    ⟨⟨devicesUrl, [⟨"Main Floor", true, true, true⟩],
      [⟨"Upstairs", true, true, true⟩], [⟨"My ecobee", true, true, true⟩],
      [], [], [], none⟩, true⟩
    (by decide) (by decide) rfl

/-- C8: requesting mode `aux` on a page whose only label reads
`Auxiliary Heat` (no standalone `aux` token): the synonym-widened label
match succeeds and `set_heating_mode` activates the label and returns
`true` (given that device selection succeeded and the System-tile step did
not abort). -/
theorem aux_synonym_label_activates (name : String) (env : ModeEnv)
    (l : LabelElem)
    (hsel : selectThermostat name env.page = true)
    (hsys : systemStage env.page.systemElems = StageRes.ok)
    (hlab : env.page.labels = [l])
    (htext : l.text = "Auxiliary Heat")
    (hclick : l.clickOk = true) :
    matchesModeLabel "aux" l = true ∧
    (setHeatingMode "aux" name env).1 = true := by
  have hmm : matchesModeLabel "aux" l = true := by
    simp only [matchesModeLabel, htext]
    decide
  refine ⟨hmm, ?_⟩
  have hlow : strLower "aux" = "aux" := by decide
  have hv : validModes.contains (strLower "aux") = true := by decide
  have hmem : "aux" ∈ validModes := by decide
  simp [setHeatingMode, hv, hlow, hmem, hsel, hsys, hlab, labelsStage, hmm,
    labelActivate, hclick]

/-- C8 witness: device `Main Floor` present as an anchor, a single label
`Auxiliary Heat`, no System tile rendered. -/
theorem aux_synonym_label_activates_witness :
    matchesModeLabel "aux" (⟨"Auxiliary Heat", none, true, false⟩ : LabelElem) = true ∧
    (setHeatingMode "aux" "Main Floor"
      ⟨⟨devicesUrl, [⟨"Main Floor", true, true, true⟩], [], [], [],
        [⟨"Auxiliary Heat", none, true, false⟩], [], none⟩, true⟩).1 = true :=
  aux_synonym_label_activates "Main Floor"
    ⟨⟨devicesUrl, [⟨"Main Floor", true, true, true⟩], [], [], [],
      [⟨"Auxiliary Heat", none, true, false⟩], [], none⟩, true⟩
    ⟨"Auxiliary Heat", none, true, false⟩
    (by decide) (by decide) rfl rfl rfl

/-- C6 counterexample: a run in which the password field is absent at
branch-detection time and no Continue button is found takes the two-step
branch but aborts (with a `continue_button_not_found` screenshot) without
ever re-attempting password location — the 10-second re-attempt event does
not occur in its trace. -/
theorem two_step_without_continue_never_retries :
    (login { username := some "u", password := some "p",
             usernameFieldFound := true, probeFound := false,
             probeDisplayed := false, continueFound := false,
             passwordFound := true, submitFound := true,
             urlAfterSubmit := "https://www.ecobee.com/consumerportal/index.html",
             screenshotOn := true }).1 = false ∧
    Ev.findInput ["password", "passwd", "pass"] passwordRetryTimeout ∉
      (login { username := some "u", password := some "p",
               usernameFieldFound := true, probeFound := false,
               probeDisplayed := false, continueFound := false,
               passwordFound := true, submitFound := true,
               urlAfterSubmit := "https://www.ecobee.com/consumerportal/index.html",
               screenshotOn := true }).2 := by
  decide

/-- C6 (amended): in every login run in which the password field is absent
or not displayed at branch-detection time and a Continue button is found,
the machine takes the two-step branch and re-attempts password location
with a strictly longer timeout (10 s) than the branch-detection probe
(2 s); when no Continue button is found the run aborts before any
re-attempt. -/
theorem two_step_retry_uses_longer_timeout (env : LoginEnv)
    (hu : env.username.isNone = false) (hp : env.password.isNone = false)
    (hun : env.usernameFieldFound = true)
    (hprobe : (env.probeFound && env.probeDisplayed) = false)
    (hcont : env.continueFound = true) :
    Ev.findInput ["password"] branchProbeTimeout ∈ (login env).2 ∧
    Ev.findInput ["password", "passwd", "pass"] passwordRetryTimeout ∈
      (login env).2 ∧
    branchProbeTimeout < passwordRetryTimeout := by
  have hlogin : login env = loginAfterBranch env
      ([Ev.navigate loginUrl, Ev.sleepSec 3,
        Ev.findInput ["email", "username", "user"] usernameTimeout] ++
       [Ev.fill "username", Ev.sleepSec 1,
        Ev.findInput ["password"] branchProbeTimeout] ++
       [Ev.jsClick, Ev.sleepSec 3]) := by
    simp [login, hu, hp, hun, hprobe, hcont]
  refine ⟨?_, ?_, by decide⟩
  · rw [hlogin]
    simp only [loginAfterBranch]
    split_ifs <;> simp [shot]
  · rw [hlogin]
    exact loginAfterBranch_retry_event env _

/-- C6 amended witness: a concrete two-step run with the Continue button
present. -/
theorem two_step_retry_uses_longer_timeout_witness :
    Ev.findInput ["password"] branchProbeTimeout ∈
      (login { username := some "u", password := some "p",
               usernameFieldFound := true, probeFound := false,
               probeDisplayed := false, continueFound := true,
               passwordFound := true, submitFound := true,
               urlAfterSubmit := "https://www.ecobee.com/consumerportal/index.html",
               screenshotOn := true }).2 ∧
    Ev.findInput ["password", "passwd", "pass"] passwordRetryTimeout ∈
      (login { username := some "u", password := some "p",
               usernameFieldFound := true, probeFound := false,
               probeDisplayed := false, continueFound := true,
               passwordFound := true, submitFound := true,
               urlAfterSubmit := "https://www.ecobee.com/consumerportal/index.html",
               screenshotOn := true }).2 ∧
    branchProbeTimeout < passwordRetryTimeout :=
  two_step_retry_uses_longer_timeout
    { username := some "u", password := some "p",
      usernameFieldFound := true, probeFound := false,
      probeDisplayed := false, continueFound := true,
      passwordFound := true, submitFound := true,
      urlAfterSubmit := "https://www.ecobee.com/consumerportal/index.html",
      screenshotOn := true }
    rfl rfl rfl rfl rfl

/-- C1 counterexample: a run in which every element is found and the URL
observed after submit is still on `auth.ecobee.com` — the claim forbids
reporting success without confirming the redirect away from the
authentication host, yet `login` returns `true` on this run (there is no
final re-verification after the grace wait). -/
theorem login_success_despite_auth_host :
    (login { username := some "u", password := some "p",
             usernameFieldFound := true, probeFound := true,
             probeDisplayed := true, continueFound := false,
             passwordFound := true, submitFound := true,
             urlAfterSubmit := "https://auth.ecobee.com/u/login?state=retry",
             screenshotOn := true }).1 = true ∧
    strHas (strLower "https://auth.ecobee.com/u/login?state=retry")
      "auth.ecobee.com" = true := by
  decide

/-- C1 (amended): in every login run that reaches the submit step, if after
the post-submit settle delay the browser is still on the authentication
host, the outcome is treated as suspect — a `login_verification_needed`
diagnostic screenshot is captured and one extended 5-second grace wait is
allowed — but the operation then reports success unconditionally: no final
verification of the redirect takes place. -/
theorem login_suspect_screenshot_grace_then_success (env : LoginEnv)
    (hu : env.username.isNone = false) (hp : env.password.isNone = false)
    (hun : env.usernameFieldFound = true)
    (hbr : (env.probeFound && env.probeDisplayed) = true ∨
      env.continueFound = true)
    (hpw : env.passwordFound = true) (hsb : env.submitFound = true)
    (hauth : strHas (strLower env.urlAfterSubmit) "auth.ecobee.com" = true)
    (hs : env.screenshotOn = true) :
    (login env).1 = true ∧
    Ev.screenshot "login_verification_needed" ∈ (login env).2 ∧
    Ev.sleepSec 5 ∈ (login env).2 := by
  by_cases hONE : (env.probeFound && env.probeDisplayed) = true
  · have hlogin : login env = loginAfterBranch env
        ([Ev.navigate loginUrl, Ev.sleepSec 3,
          Ev.findInput ["email", "username", "user"] usernameTimeout] ++
         [Ev.fill "username", Ev.sleepSec 1,
          Ev.findInput ["password"] branchProbeTimeout]) := by
      simp [login, hu, hp, hun, hONE]
    rw [hlogin]
    exact loginAfterBranch_suspect env _ hpw hsb hauth hs
  · have hONE' : (env.probeFound && env.probeDisplayed) = false := by
      cases hx : env.probeFound && env.probeDisplayed
      · rfl
      · exact absurd hx hONE
    have hcont : env.continueFound = true := by
      rcases hbr with h | h
      · exact absurd h hONE
      · exact h
    have hlogin : login env = loginAfterBranch env
        ([Ev.navigate loginUrl, Ev.sleepSec 3,
          Ev.findInput ["email", "username", "user"] usernameTimeout] ++
         [Ev.fill "username", Ev.sleepSec 1,
          Ev.findInput ["password"] branchProbeTimeout] ++
         [Ev.jsClick, Ev.sleepSec 3]) := by
      simp [login, hu, hp, hun, hONE', hcont]
    rw [hlogin]
    exact loginAfterBranch_suspect env _ hpw hsb hauth hs

/-- C1 amended witness: a concrete single-step run still on the
authentication host after submit. -/
theorem login_suspect_screenshot_grace_then_success_witness :
    (login { username := some "u", password := some "p",
             usernameFieldFound := true, probeFound := true,
             probeDisplayed := true, continueFound := false,
             passwordFound := true, submitFound := true,
             urlAfterSubmit := "https://auth.ecobee.com/u/login",
             screenshotOn := true }).1 = true ∧
    Ev.screenshot "login_verification_needed" ∈
      (login { username := some "u", password := some "p",
               usernameFieldFound := true, probeFound := true,
               probeDisplayed := true, continueFound := false,
               passwordFound := true, submitFound := true,
               urlAfterSubmit := "https://auth.ecobee.com/u/login",
               screenshotOn := true }).2 ∧
    Ev.sleepSec 5 ∈
      (login { username := some "u", password := some "p",
               usernameFieldFound := true, probeFound := true,
               probeDisplayed := true, continueFound := false,
               passwordFound := true, submitFound := true,
               urlAfterSubmit := "https://auth.ecobee.com/u/login",
               screenshotOn := true }).2 :=
  login_suspect_screenshot_grace_then_success
    { username := some "u", password := some "p",
      usernameFieldFound := true, probeFound := true,
      probeDisplayed := true, continueFound := false,
      passwordFound := true, submitFound := true,
      urlAfterSubmit := "https://auth.ecobee.com/u/login",
      screenshotOn := true }
    rfl rfl rfl (Or.inl rfl) rfl rfl (by decide) rfl

end Ecobee
